import Mathlib

/-!
# Verification of the zufs user-space server core (zus)

A shallow embedding of the parts of `zus-core.c` and `zus-vfs.c` that the
specification's claims are about:

* `_errno_UtoK` — normalization of handler results to kernel sign convention;
* the main loop of `_zu_thread` — modelled as a trace-producing function
  `ztRun` over streams of stop flags, transport results and dispatch results;
* the VFS operation handlers `_lookup`, `_new_inode`, `_evict`, `_rename`,
  `_ioc_xattr`, `_get_put_block`, … and the demultiplexer `zus_do_command`;
* the topology query `zus_cpu_to_node` with its `___BAD_CPU` guard.

Machine integers are modelled as `Int`/`Nat`; C strings are modelled as a
byte function `Nat → Nat` plus an explicit length, with `strncmp` embedded
as the C library function (comparison stops at a common NUL or after `n`
bytes). Back-end vtable entries are oracles: `Option Int` for an optional
entry (`none` = entry absent, `some r` = entry present and returning `r`),
plain `Int` for a mandatory one. Calls into the back-end are recorded in
explicit call traces so that claims of the form "callback X is invoked
exactly when …" can be stated.

The file is organized as: all definitions first, then all lemmas and the
claim theorems.
-/

namespace Zus

/-! ## Errno constants (Linux values, as used by the C sources) -/

def ENOENT : Int := 2
def EIO : Int := 5
def ENOMEM : Int := 12
def EFAULT : Int := 14
def EINVAL : Int := 22
def ENOTTY : Int := 25
def ENOTSUP : Int := 95

/-! ## Error-code normalization

Embeds `zus-core.c:_errno_UtoK`:

```c
static __s32 _errno_UtoK(__s32 err)
{
        return (err < 0) ? err : -err;
}
```
-/

def _errno_UtoK (err : Int) : Int :=
  if err < 0 then err else -err

/-! ## The worker main loop

Embeds the main loop and teardown of `zus-core.c:_zu_thread`:

```c
        while (!zt->stop) {
                zt->zbt.err = zuf_wait_opt(zt->fd, op);
                if (zt->zbt.err) {
                        DBG("zu_thread: err=%d\n", zt->zbt.err);
                        /* Do not break continue and let zt->stop say if to exit
                         * Otherwise any kill of an app will exit the ZT
                         * and channel is stuck.
                         */
                }
                op->hdr.err = _errno_UtoK(_do_op(zt, op));
        }
        _zu_ioc_buff_unmap(op);
        _zu_unmap(zt);
        zuf_root_close(&zt->fd);
```

The loop is modelled as a trace-producing function. The environment is a
triple of streams indexed by iteration number: the value of the (volatile)
`stop` flag when it is read at the top of iteration `i`, the return value of
the `zuf_wait_opt` transport call at iteration `i`, and the result of
`_do_op` (i.e. of the demultiplexer on the op buffer's current contents) at
iteration `i`. Since the real loop need not terminate, the model takes a
fuel bound; the Bool component of the result records whether the loop
exited (via `stop`) within the fuel.
-/

/-- An observable event of the worker thread's main loop and teardown. -/
inductive ZTEvent where
  /-- the transport call `zuf_wait_opt` returned with this error code. -/
  | waitOp : Int → ZTEvent
  /-- the demultiplexer `_do_op`/`zus_do_command` was invoked at iteration `i`. -/
  | dispatch : Nat → ZTEvent
  /-- the field `op->hdr.err` was overwritten with this value. -/
  | writeErr : Int → ZTEvent
  /-- the call `_zu_ioc_buff_unmap(op)` ran. -/
  | buffUnmap : ZTEvent
  /-- the call `_zu_unmap(zt)` ran. -/
  | unmapEv : ZTEvent
  /-- the call `zuf_root_close(&zt->fd)` ran. -/
  | closeEv : ZTEvent
deriving DecidableEq, Repr

/-- The environment a running worker observes, one entry per loop iteration. -/
structure ZTStream where
  /-- value of `zt->stop` as read at the top of iteration `i` -/
  stop : Nat → Bool
  /-- return value of `zuf_wait_opt` at iteration `i` -/
  waitErr : Nat → Int
  /-- result of `_do_op` (the demultiplexer) at iteration `i` -/
  doOp : Nat → Int

/-- Runs the `_zu_thread` main loop from iteration `i` for at most `fuel`
further iterations, returning the trace of events and whether the loop
exited (by observing `stop`) within the fuel. -/
def ztRun (s : ZTStream) : Nat → Nat → List ZTEvent × Bool
  | fuel, i =>
    if s.stop i then
      ([ZTEvent.buffUnmap, ZTEvent.unmapEv, ZTEvent.closeEv], true)
    else
      match fuel with
      | 0 => ([], false)
      | fuel + 1 =>
        let rest := ztRun s fuel (i + 1)
        (ZTEvent.waitOp (s.waitErr i) :: ZTEvent.dispatch i ::
           ZTEvent.writeErr (_errno_UtoK (s.doOp i)) :: rest.1, rest.2)

/-- Concrete worker environment: never stopped, dispatch always returns 5. -/
def c1Stream : ZTStream :=
  ⟨fun _ => false, fun _ => 0, fun _ => 5⟩

/-- Concrete worker environment: stop observed at iteration 1, transport
failing with -4 throughout. -/
def c5Stream : ZTStream :=
  ⟨fun n => n == 1, fun _ => -4, fun _ => 0⟩

/-- Same stop stream as `c5Stream` but healthy transport and different
dispatch results. -/
def c5Stream' : ZTStream :=
  ⟨fun n => n == 1, fun _ => 0, fun _ => 3⟩

/-- Concrete worker environment: transport failing with -9, never stopped. -/
def c10Stream : ZTStream :=
  ⟨fun _ => false, fun _ => -9, fun _ => 7⟩

/-! ## Strings and `strncmp`

The request name (`struct zufs_str`) carries an explicit length `len` and a
byte buffer; the buffer is modelled as a total byte function. `strncmp` is
the C library function: it compares at most `n` bytes and stops early at a
common NUL byte.
-/

/-- The byte-comparison `strncmp(a, b, n)` of the C library, on buffers
modelled as byte functions. -/
def strncmp : (Nat → Nat) → (Nat → Nat) → Nat → Int
  | _, _, 0 => 0
  | a, b, n + 1 =>
    if a 0 = b 0 then
      if a 0 = 0 then 0
      else strncmp (fun i => a (i + 1)) (fun i => b (i + 1)) n
    else (a 0 : Int) - (b 0 : Int)

/-- The NUL-terminated C literal `"."` (byte 46 is the dot). -/
def dotName : Nat → Nat := fun i => if i = 0 then 46 else 0

/-- The NUL-terminated C literal `".."`. -/
def dotdotName : Nat → Nat := fun i => if i < 2 then 46 else 0

/-- A `struct zufs_str`: explicit length plus name bytes. -/
structure ZufsStr where
  len : Nat
  name : Nat → Nat

/-! ## LOOKUP

Embeds `zus-vfs.c:_lookup`:

```c
        if (!str->len || !str->name[0]) {
                ERROR("lookup NULL string\n");
                return  0;
        }
        if (0 == strncmp(".", str->name, str->len))
                ino = lookup->dir_ii->zi->i_ino;
        else if (0 == strncmp("..", str->name, str->len))
                ino = lookup->dir_ii->zi->i_dir.parent;
        else
                ino  = lookup->dir_ii->sbi->op->lookup(lookup->dir_ii, str);
        if (!ino) { ... return -ENOENT; }
        zii = zus_iget(lookup->dir_ii->sbi, ino);
        if (unlikely(!zii))
                return -ENOENT;
        lookup->_zi = md_addr_to_offset(&zii->sbi->md, zii->zi);
        lookup->zus_ii = zii;
        return 0;
```

Inode handles (`struct zus_inode_info *`) are modelled as `Nat` tokens;
`zus_iget` (which calls the back-end `iget` and returns NULL on failure) is
an oracle `Nat → Option Nat`.
-/

/-- The parent directory inode and the back-end oracles `_lookup` consults. -/
structure LookupCtx where
  /-- the parent's own inode number, `dir_ii->zi->i_ino` -/
  dirIno : Nat
  /-- the parent's stored parent inode number, `dir_ii->zi->i_dir.parent` -/
  dirParent : Nat
  /-- the back-end lookup, `dir_ii->sbi->op->lookup(dir_ii, str)` -/
  backendLookup : ZufsStr → Nat
  /-- result of `zus_iget(sbi, ino)`: `none` models a NULL return -/
  igetRes : Nat → Option Nat
  /-- the offset translator `md_addr_to_offset(&sbi->md, zii->zi)` -/
  addrToOffset : Nat → Nat

/-- The observable outcome of `_lookup`: the returned error and the `_zi`
offset / `zus_ii` handle fields written into the reply (or left unset). -/
structure LookupResult where
  err : Int
  zi_off : Option Nat
  zus_ii : Option Nat
deriving DecidableEq, Repr

/-- The inode number `_lookup` resolves the name to (the `ino` local of the
C function, computed after the NULL-string guard). -/
def lookup_resolved_ino (ctx : LookupCtx) (str : ZufsStr) : Nat :=
  if strncmp dotName str.name str.len = 0 then ctx.dirIno
  else if strncmp dotdotName str.name str.len = 0 then ctx.dirParent
  else ctx.backendLookup str

/-- The LOOKUP handler `zus-vfs.c:_lookup`. -/
def _lookup (ctx : LookupCtx) (str : ZufsStr) : LookupResult :=
  if str.len = 0 ∨ str.name 0 = 0 then ⟨0, none, none⟩
  else
    let ino := lookup_resolved_ino ctx str
    if ino = 0 then ⟨-ENOENT, none, none⟩
    else
      match ctx.igetRes ino with
      | none => ⟨-ENOENT, none, none⟩
      | some zii => ⟨0, some (ctx.addrToOffset zii), some zii⟩

/-- Concrete lookup context: parent ino 5, stored parent 3, back-end lookup
finding nothing, iget succeeding on every ino. -/
def c2Ctx : LookupCtx :=
  ⟨5, 3, fun _ => 0, fun i => some i, fun z => z + 100⟩

/-- The name `"."` of length 1. -/
def c2Dot : ZufsStr := ⟨1, dotName⟩

/-- The name `".."` of length 2. -/
def c2DotDot : ZufsStr := ⟨2, dotdotName⟩

/-- The name `"x"` (byte 120) of length 1. -/
def c2Other : ZufsStr := ⟨1, fun i => if i = 0 then 120 else 0⟩

/-- A zero-length name over a non-NUL buffer. -/
def c9Str : ZufsStr := ⟨0, fun _ => 1⟩

/-! ## NEW_INODE

Embeds `zus-vfs.c:_new_inode`:

```c
        zii = sbi->op->zii_alloc(sbi);
        if (!zii)
                return -ENOMEM;
        zii->sbi = sbi;
        /* In ZUS protocol we start zero ref, add_dentry increments the refs
         * (Kernel gave us a 1 here expect for O_TMPFILE)
         */
        ioc_new->zi.i_nlink = 0;
        err = sbi->op->new_inode(sbi, zii, app_ptr, ioc_new);
        if (unlikely(err))
                goto _err_zii_free;
        ioc_new->_zi = md_addr_to_offset(&sbi->md, zii->zi);
        ioc_new->zus_ii = zii;
        if (ioc_new->flags & ZI_TMPFILE)
                return 0;
        err = ioc_new->dir_ii->sbi->op->add_dentry(ioc_new->dir_ii, zii,
                                                   &ioc_new->str);
        if (unlikely(err))
                goto _err_free_inode;
        return 0;
_err_free_inode:
        zii->sbi->op->free_inode(zii);
_err_zii_free:
        zii->sbi->op->zii_free(zii);
        return err;
```

The back-end calls are recorded in a trace; the `new_inode` trace entry
records the value of `ioc_new->zi.i_nlink` at the moment of the call.
-/

/-- A back-end call made by `_new_inode`. -/
inductive NICall where
  /-- `sbi->op->zii_alloc(sbi)` was invoked. -/
  | ziiAllocCall : NICall
  /-- `sbi->op->new_inode(...)` was invoked while `ioc_new->zi.i_nlink`
  held this value. -/
  | newInodeCall : Nat → NICall
  /-- `add_dentry(ioc_new->dir_ii, zii, &ioc_new->str)` was invoked. -/
  | addDentryCall : NICall
  /-- `zii->sbi->op->free_inode(zii)` was invoked. -/
  | freeInodeCall : NICall
  /-- `zii->sbi->op->zii_free(zii)` was invoked. -/
  | ziiFreeCall : NICall
deriving DecidableEq, Repr

/-- The back-end oracles of `_new_inode`. -/
structure NewInodeEnv where
  /-- result of `zii_alloc`: `none` models a NULL return -/
  ziiAllocRes : Option Nat
  /-- result of the back-end `new_inode` call -/
  newInodeErr : Int
  /-- result of the back-end `add_dentry` call -/
  addDentryErr : Int
  /-- the offset translator `md_addr_to_offset` -/
  addrToOffset : Nat → Nat

/-- The request fields of `struct zufs_ioc_new_inode` the handler touches. -/
structure NewInodeIoc where
  /-- `ioc_new->zi.i_nlink` as delivered by the kernel -/
  nlink : Nat
  /-- whether `ioc_new->flags & ZI_TMPFILE` is set -/
  tmpfile : Bool

/-- The observable outcome of `_new_inode`: error, the `_zi` / `zus_ii`
reply fields, the final `i_nlink` and the back-end call trace. -/
structure NewInodeResult where
  err : Int
  zi_off : Option Nat
  zus_ii : Option Nat
  nlink : Nat
  calls : List NICall
deriving DecidableEq, Repr

/-- The NEW_INODE handler `zus-vfs.c:_new_inode`. -/
def _new_inode (env : NewInodeEnv) (ioc : NewInodeIoc) : NewInodeResult :=
  match env.ziiAllocRes with
  | none => ⟨-ENOMEM, none, none, ioc.nlink, [NICall.ziiAllocCall]⟩
  | some zii =>
    if env.newInodeErr ≠ 0 then
      ⟨env.newInodeErr, none, none, 0,
        [NICall.ziiAllocCall, NICall.newInodeCall 0, NICall.ziiFreeCall]⟩
    else if ioc.tmpfile then
      ⟨0, some (env.addrToOffset zii), some zii, 0,
        [NICall.ziiAllocCall, NICall.newInodeCall 0]⟩
    else if env.addDentryErr ≠ 0 then
      ⟨env.addDentryErr, some (env.addrToOffset zii), some zii, 0,
        [NICall.ziiAllocCall, NICall.newInodeCall 0, NICall.addDentryCall,
         NICall.freeInodeCall, NICall.ziiFreeCall]⟩
    else
      ⟨0, some (env.addrToOffset zii), some zii, 0,
        [NICall.ziiAllocCall, NICall.newInodeCall 0, NICall.addDentryCall]⟩

/-- Concrete NEW_INODE environment: allocation yields handle 7, back-end
`new_inode` succeeds, `add_dentry` fails with -17. -/
def c3EnvFail : NewInodeEnv := ⟨some 7, 0, -17, fun z => z⟩

/-- Concrete NEW_INODE request: kernel-delivered `i_nlink = 1`, no TMPFILE. -/
def c3Ioc : NewInodeIoc := ⟨1, false⟩

/-! ## Operation codes

The `enum e_zufs_operation` values that `zus_do_command` dispatches on
(`ZUS_OP_NULL` and `ZUS_OP_IOM_DONE` have no case in the switch and fall
into the default arm).
-/

/-- The operation codes of `enum e_zufs_operation`. -/
inductive ZusOp where
  | NULL | STATFS | NEW_INODE | FREE_INODE | EVICT_INODE | LOOKUP
  | ADD_DENTRY | REMOVE_DENTRY | RENAME | READDIR | CLONE | COPY
  | READ | PRE_READ | WRITE | GET_BLOCK | PUT_BLOCK | MMAP_CLOSE
  | GET_SYMLINK | SETATTR | SYNC | FALLOCATE | LLSEEK | IOM_DONE
  | IOCTL | XATTR_GET | XATTR_SET | XATTR_LIST | BREAK
deriving DecidableEq, Repr

/-! ## FREE_INODE / EVICT_INODE

Embeds `zus-vfs.c:_evict`:

```c
        struct zus_inode_info *zii = ziei->zus_ii;
        if (unlikely(!zii)) {
                ERROR("!ziei->zus_ii\n");
                return 0;
        }
        if (hdr->operation == ZUS_OP_FREE_INODE) {
                if (likely(zii->sbi->op->free_inode))
                        zii->sbi->op->free_inode(zii);
        } else { /* ZUS_OP_EVICT_INODE */
                if (zii->op->evict && !(ziei->flags & ZI_LOOKUP_RACE))
                        zii->op->evict(zii);
        }
        zii->sbi->op->zii_free(zii);
        return 0;
```
-/

/-- A back-end call made by `_evict`. -/
inductive EvictCall where
  /-- `zii->sbi->op->free_inode(zii)` was invoked. -/
  | freeInodeCall : EvictCall
  /-- `zii->op->evict(zii)` was invoked. -/
  | evictCall : EvictCall
  /-- `zii->sbi->op->zii_free(zii)` was invoked. -/
  | ziiFreeCall : EvictCall
deriving DecidableEq, Repr

/-- The request fields and vtable presence flags `_evict` inspects. -/
structure EvictEnv where
  /-- `ziei->zus_ii`: `none` models a NULL handle -/
  zusIi : Option Nat
  /-- whether `zii->sbi->op->free_inode` is non-NULL -/
  freeInodePresent : Bool
  /-- whether `zii->op->evict` is non-NULL -/
  evictPresent : Bool
  /-- whether `ziei->flags & ZI_LOOKUP_RACE` is set -/
  lookupRace : Bool

/-- The FREE_INODE / EVICT_INODE handler `zus-vfs.c:_evict`; takes the
header's operation code and returns the error plus the call trace. -/
def _evict (op : ZusOp) (env : EvictEnv) : Int × List EvictCall :=
  match env.zusIi with
  | none => (0, [])
  | some _ =>
    if op = ZusOp.FREE_INODE then
      (0, (if env.freeInodePresent then [EvictCall.freeInodeCall] else []) ++
            [EvictCall.ziiFreeCall])
    else
      (0, (if env.evictPresent && !env.lookupRace then [EvictCall.evictCall] else []) ++
            [EvictCall.ziiFreeCall])

/-- Concrete EVICT environment with a NULL `zus_ii` handle but all
callbacks present and no lookup race. -/
def c4EnvNull : EvictEnv := ⟨none, true, true, false⟩

/-- Concrete EVICT environment with handle 3, all callbacks present, no
lookup race. -/
def c4Env : EvictEnv := ⟨some 3, true, true, false⟩

/-! ## The remaining handlers and the demultiplexer

Each optional vtable entry is an oracle `Option Int` (`none` = NULL entry,
`some r` = entry present, returning `r` when called); mandatory entries are
plain `Int` oracles. The handlers below embed, in order: `_rename`,
`_readdir`, `_clone`, `_io_read`, `_io_pre_read`, `_io_write`,
`_get_put_block`, `_mmap_close`, `_symlink`, `_setattr`, `_sync`,
`_fallocate`, `_seek`, `_ioc_ioctl`, `_ioc_xattr`, `_statfs`, `_dentry`
from `zus-vfs.c`.
-/

/-- The RENAME handler: `-ENOTSUP` when `sbi->op->rename` is NULL. -/
def _rename (renameFn : Option Int) : Int :=
  match renameFn with
  | none => -ENOTSUP
  | some r => r

/-- The READDIR handler: `-ENOTSUP` when `sbi->op->readdir` is NULL. -/
def _readdir (readdirFn : Option Int) : Int :=
  match readdirFn with
  | none => -ENOTSUP
  | some r => r

/-- The CLONE/COPY handler: `-ENOTSUP` when `sbi->op->clone` is NULL. -/
def _clone (cloneFn : Option Int) : Int :=
  match cloneFn with
  | none => -ENOTSUP
  | some r => r

/-- The READ handler: `zii->op->read` is called unconditionally. -/
def _io_read (readRes : Int) : Int := readRes

/-- The PRE_READ handler: `-ENOTSUP` when `zii->op->pre_read` is NULL. -/
def _io_pre_read (preReadFn : Option Int) : Int :=
  match preReadFn with
  | none => -ENOTSUP
  | some r => r

/-- The WRITE handler: `zii->op->write` is called unconditionally. -/
def _io_write (writeRes : Int) : Int := writeRes

/-- The GET_BLOCK/PUT_BLOCK handler: a missing `put_block` returns 0 ("Cool
put is optional"), a missing `get_block` returns minus EIO. -/
def _get_put_block (op : ZusOp) (putBlockFn getBlockFn : Option Int) : Int :=
  if op = ZusOp.PUT_BLOCK then
    match putBlockFn with
    | none => 0
    | some r => r
  else
    match getBlockFn with
    | none => - EIO
    | some r => r

/-- The MMAP_CLOSE handler: 0 when `zii->op->mmap_close` is NULL. -/
def _mmap_close (mmapCloseFn : Option Int) : Int :=
  match mmapCloseFn with
  | none => 0
  | some r => r

/-- The GET_SYMLINK handler: returns the `get_symlink` error, else 0. -/
def _symlink (getSymlinkErr : Int) : Int :=
  if getSymlinkErr ≠ 0 then getSymlinkErr else 0

/-- The SETATTR handler: 0 when `zii->op->setattr` is NULL. -/
def _setattr (setattrFn : Option Int) : Int :=
  match setattrFn with
  | none => 0
  | some r => r

/-- The SYNC handler: 0 when `zii->op->sync` is NULL. -/
def _sync (syncFn : Option Int) : Int :=
  match syncFn with
  | none => 0
  | some r => r

/-- The FALLOCATE handler: `-ENOTSUP` when `zii->op->fallocate` is NULL. -/
def _fallocate (fallocateFn : Option Int) : Int :=
  match fallocateFn with
  | none => -ENOTSUP
  | some r => r

/-- The LLSEEK handler: `-ENOTSUP` when `zii->op->seek` is NULL. -/
def _seek (seekFn : Option Int) : Int :=
  match seekFn with
  | none => -ENOTSUP
  | some r => r

/-- The IOCTL handler: `-ENOTTY` when `zii->op->ioctl` is NULL. -/
def _ioc_ioctl (ioctlFn : Option Int) : Int :=
  match ioctlFn with
  | none => -ENOTTY
  | some r => r

/-- The XATTR_GET/SET/LIST handler: `-ENOTSUP` for a missing entry,
`-EFAULT` for an unknown xattr operation. -/
def _ioc_xattr (op : ZusOp) (getxattrFn setxattrFn listxattrFn : Option Int) : Int :=
  if op = ZusOp.XATTR_GET then
    match getxattrFn with
    | none => -ENOTSUP
    | some r => r
  else if op = ZusOp.XATTR_SET then
    match setxattrFn with
    | none => -ENOTSUP
    | some r => r
  else if op = ZusOp.XATTR_LIST then
    match listxattrFn with
    | none => -ENOTSUP
    | some r => r
  else -EFAULT

/-- The STATFS handler: `-ENOTSUP` when `sbi->op->statfs` is NULL. -/
def _statfs (statfsFn : Option Int) : Int :=
  match statfsFn with
  | none => -ENOTSUP
  | some r => r

/-- The ADD_DENTRY/REMOVE_DENTRY handler `_dentry`. -/
def _dentry (op : ZusOp) (removeDentryRes addDentryRes : Int) : Int :=
  if op = ZusOp.REMOVE_DENTRY then removeDentryRes else addDentryRes

/-- All the back-end vtable oracles and request payloads `zus_do_command`
may consult (the contents of the op buffer plus the target filesystem's
vtables). -/
structure VfsEnv where
  statfsFn : Option Int
  readdirFn : Option Int
  cloneFn : Option Int
  renameFn : Option Int
  preReadFn : Option Int
  fallocateFn : Option Int
  seekFn : Option Int
  ioctlFn : Option Int
  getxattrFn : Option Int
  setxattrFn : Option Int
  listxattrFn : Option Int
  getBlockFn : Option Int
  putBlockFn : Option Int
  mmapCloseFn : Option Int
  setattrFn : Option Int
  syncFn : Option Int
  readRes : Int
  writeRes : Int
  getSymlinkErr : Int
  addDentryRes : Int
  removeDentryRes : Int
  ni : NewInodeEnv
  niIoc : NewInodeIoc
  lk : LookupCtx
  lkStr : ZufsStr
  ev : EvictEnv

/-- The operation demultiplexer `zus-vfs.c:zus_do_command`: a switch from
operation code to handler. `BREAK` breaks out of the switch and returns 0;
codes with no case (`NULL`, `IOM_DONE`) reach the default arm, which logs
and returns 0. -/
def zus_do_command (env : VfsEnv) (op : ZusOp) : Int :=
  match op with
  | ZusOp.NEW_INODE => (_new_inode env.ni env.niIoc).err
  | ZusOp.FREE_INODE => (_evict ZusOp.FREE_INODE env.ev).1
  | ZusOp.EVICT_INODE => (_evict ZusOp.EVICT_INODE env.ev).1
  | ZusOp.LOOKUP => (_lookup env.lk env.lkStr).err
  | ZusOp.ADD_DENTRY => _dentry ZusOp.ADD_DENTRY env.removeDentryRes env.addDentryRes
  | ZusOp.REMOVE_DENTRY => _dentry ZusOp.REMOVE_DENTRY env.removeDentryRes env.addDentryRes
  | ZusOp.RENAME => _rename env.renameFn
  | ZusOp.READDIR => _readdir env.readdirFn
  | ZusOp.CLONE => _clone env.cloneFn
  | ZusOp.COPY => _clone env.cloneFn
  | ZusOp.READ => _io_read env.readRes
  | ZusOp.PRE_READ => _io_pre_read env.preReadFn
  | ZusOp.WRITE => _io_write env.writeRes
  | ZusOp.GET_BLOCK => _get_put_block ZusOp.GET_BLOCK env.putBlockFn env.getBlockFn
  | ZusOp.PUT_BLOCK => _get_put_block ZusOp.PUT_BLOCK env.putBlockFn env.getBlockFn
  | ZusOp.MMAP_CLOSE => _mmap_close env.mmapCloseFn
  | ZusOp.GET_SYMLINK => _symlink env.getSymlinkErr
  | ZusOp.SETATTR => _setattr env.setattrFn
  | ZusOp.SYNC => _sync env.syncFn
  | ZusOp.FALLOCATE => _fallocate env.fallocateFn
  | ZusOp.LLSEEK => _seek env.seekFn
  | ZusOp.IOCTL => _ioc_ioctl env.ioctlFn
  | ZusOp.XATTR_GET => _ioc_xattr ZusOp.XATTR_GET env.getxattrFn env.setxattrFn env.listxattrFn
  | ZusOp.XATTR_SET => _ioc_xattr ZusOp.XATTR_SET env.getxattrFn env.setxattrFn env.listxattrFn
  | ZusOp.XATTR_LIST => _ioc_xattr ZusOp.XATTR_LIST env.getxattrFn env.setxattrFn env.listxattrFn
  | ZusOp.STATFS => _statfs env.statfsFn
  | ZusOp.BREAK => 0
  | ZusOp.NULL => 0
  | ZusOp.IOM_DONE => 0

/-- A concrete environment with every optional vtable entry absent. -/
def c6Env : VfsEnv where
  statfsFn := none
  readdirFn := none
  cloneFn := none
  renameFn := none
  preReadFn := none
  fallocateFn := none
  seekFn := none
  ioctlFn := none
  getxattrFn := none
  setxattrFn := none
  listxattrFn := none
  getBlockFn := none
  putBlockFn := none
  mmapCloseFn := none
  setattrFn := none
  syncFn := none
  readRes := 0
  writeRes := 0
  getSymlinkErr := 0
  addDentryRes := 0
  removeDentryRes := 0
  ni := ⟨some 1, 0, 0, fun z => z⟩
  niIoc := ⟨1, false⟩
  lk := ⟨5, 3, fun _ => 0, fun i => some i, fun z => z⟩
  lkStr := ⟨1, dotName⟩
  ev := ⟨some 1, true, true, false⟩

/-! ## CPU/NUMA topology

Embeds the topology snapshot (`struct zufs_ioc_numa_map`: `possible_cpus`,
`possible_nodes`, `cpu_set_per_node[]`), the derived online mask of
`_set_cpumasks` / `zus_cpu_online`, the `___BAD_CPU` guard and
`zus_cpu_to_node` from `zus-core.c`. Warnings emitted by `ZUS_WARN_ON` /
`ERROR` / `ZUS_WARN_ON_ONCE` are counted so "records a warning" is
statable.
-/

/-- The kernel-provided NUMA map: cpu/node counts and per-node CPU masks. -/
structure NumaMap where
  possible_cpus : Nat
  possible_nodes : Nat
  /-- bit `cpu` of `cpu_set_per_node[node]` -/
  node_bit : Nat → Nat → Bool

/-- Modelled from the spec: `zus_num_possible_nodes` lives in a header that
is not under `src/`; per the spec's topology snapshot it is the
`possible_nodes` field of the NUMA map. -/
def zus_num_possible_nodes (m : NumaMap) : Nat := m.possible_nodes

/-- Membership in the online mask as built by `_set_cpumasks` combined with
the range check of `zus_cpu_online`: a cpu is online iff it is below
`possible_cpus` and set in some node's mask. -/
def zus_cpu_online (m : NumaMap) (cpu : Nat) : Bool :=
  decide (cpu < m.possible_cpus) &&
    (List.range m.possible_nodes).any fun node => m.node_bit node cpu

/-- The guard `___BAD_CPU(cpu)`: yells (returning `true` plus a warning
count) on an out-of-range or offline cpu, but never aborts. -/
def ___BAD_CPU (m : NumaMap) (cpu : Nat) : Bool × Nat :=
  if m.possible_cpus ≤ cpu then (true, 1)
  else if zus_cpu_online m cpu = false then (true, 1)
  else (false, 0)

/-- The topology query `zus_cpu_to_node`: node result plus warning count.
A bad cpu yields node 0 ("Yell but don't crash"); otherwise the first node
whose mask contains the cpu; if the scan falls through, `ZUS_WARN_ON_ONCE`
fires (when the loop ran at all) and node 0 is returned. -/
def zus_cpu_to_node (m : NumaMap) (cpu : Nat) : Nat × Nat :=
  if (___BAD_CPU m cpu).1 then (0, (___BAD_CPU m cpu).2)
  else
    match (List.range (zus_num_possible_nodes m)).find? (fun node => m.node_bit node cpu) with
    | some node => (node, 0)
    | none => (0, if zus_num_possible_nodes m = 0 then 0 else 1)

/-- Concrete NUMA map: 4 possible cpus on 2 nodes, cpus 0-1 on node 0 and
cpus 2-3 on node 1. -/
def c7Map : NumaMap :=
  ⟨4, 2, fun node cpu => cpu < 4 && cpu / 2 == node⟩

/-! ## Lemmas about `_errno_UtoK` and `ztRun` -/

lemma errno_UtoK_nonpos (e : Int) : _errno_UtoK e ≤ 0 := by
  unfold _errno_UtoK
  split <;> omega

lemma errno_UtoK_of_neg {e : Int} (h : e < 0) : _errno_UtoK e = e := by
  simp [_errno_UtoK, h]

lemma errno_UtoK_of_nonneg {e : Int} (h : 0 ≤ e) : _errno_UtoK e = -e := by
  simp [_errno_UtoK, not_lt.mpr h]

lemma ztRun_stop {s : ZTStream} {fuel i : Nat} (h : s.stop i = true) :
    ztRun s fuel i = ([ZTEvent.buffUnmap, ZTEvent.unmapEv, ZTEvent.closeEv], true) := by
  cases fuel <;> simp [ztRun, h]

lemma ztRun_zero_go {s : ZTStream} {i : Nat} (h : s.stop i = false) :
    ztRun s 0 i = ([], false) := by
  simp [ztRun, h]

lemma ztRun_go {s : ZTStream} {fuel i : Nat} (h : s.stop i = false) :
    ztRun s (fuel + 1) i =
      (ZTEvent.waitOp (s.waitErr i) :: ZTEvent.dispatch i ::
         ZTEvent.writeErr (_errno_UtoK (s.doOp i)) :: (ztRun s fuel (i + 1)).1,
       (ztRun s fuel (i + 1)).2) := by
  simp [ztRun, h]

/-- Every `writeErr` event in a worker trace carries a non-positive value. -/
lemma ztRun_writeErr_nonpos (s : ZTStream) (fuel : Nat) :
    ∀ i v, ZTEvent.writeErr v ∈ (ztRun s fuel i).1 → v ≤ 0 := by
  induction fuel with
  | zero =>
    intro i v hv
    by_cases h : s.stop i
    · rw [ztRun_stop h] at hv; simp at hv
    · rw [ztRun_zero_go (by simpa using h)] at hv; simp at hv
  | succ fuel ih =>
    intro i v hv
    by_cases h : s.stop i
    · rw [ztRun_stop h] at hv; simp at hv
    · rw [ztRun_go (by simpa using h)] at hv
      simp only [List.mem_cons] at hv
      rcases hv with h1 | h1 | h1 | h1
      · cases h1
      · cases h1
      · cases h1; exact errno_UtoK_nonpos _
      · exact ih (i + 1) v h1

/-- The exit flag of a worker run does not depend on the transport results
nor on the dispatch results, only on the stop stream. -/
lemma ztRun_exit_eq (s s' : ZTStream) (hs : s.stop = s'.stop) (fuel : Nat) :
    ∀ i, (ztRun s fuel i).2 = (ztRun s' fuel i).2 := by
  induction fuel with
  | zero =>
    intro i
    by_cases h : s.stop i
    · rw [ztRun_stop h, ztRun_stop (hs ▸ h)]
    · rw [ztRun_zero_go (by simpa using h),
        ztRun_zero_go (by rw [← hs]; simpa using h)]
  | succ fuel ih =>
    intro i
    by_cases h : s.stop i
    · rw [ztRun_stop h, ztRun_stop (hs ▸ h)]
    · rw [ztRun_go (by simpa using h), ztRun_go (by rw [← hs]; simpa using h)]
      exact ih (i + 1)

/-- The worker run exits only when the stop flag was observed true. -/
lemma ztRun_exit_iff_stop (s : ZTStream) (fuel : Nat) :
    ∀ i, (ztRun s fuel i).2 = true ↔ ∃ k ≤ fuel, s.stop (i + k) = true := by
  induction fuel with
  | zero =>
    intro i
    by_cases h : s.stop i
    · rw [ztRun_stop h]
      exact ⟨fun _ => ⟨0, le_refl _, by simpa using h⟩, fun _ => rfl⟩
    · rw [ztRun_zero_go (by simpa using h)]
      constructor
      · intro hfalse; cases hfalse
      · rintro ⟨k, hk, hst⟩
        interval_cases k
        · simp at hst; exact absurd hst h
  | succ fuel ih =>
    intro i
    by_cases h : s.stop i
    · rw [ztRun_stop h]
      exact ⟨fun _ => ⟨0, Nat.zero_le _, by simpa using h⟩, fun _ => rfl⟩
    · rw [ztRun_go (by simpa using h)]
      simp only []
      rw [ih (i + 1)]
      constructor
      · rintro ⟨k, hk, hst⟩
        exact ⟨k + 1, by omega, by simpa [Nat.add_comm, Nat.add_assoc, Nat.add_left_comm] using hst⟩
      · rintro ⟨k, hk, hst⟩
        match k with
        | 0 => exact absurd (by simpa using hst) h
        | k + 1 =>
          exact ⟨k, by omega, by simpa [Nat.add_comm, Nat.add_assoc, Nat.add_left_comm] using hst⟩

/-- Teardown (`zuf_root_close`) appears in the trace iff the run exited. -/
lemma ztRun_close_iff_exit (s : ZTStream) (fuel : Nat) :
    ∀ i, ZTEvent.closeEv ∈ (ztRun s fuel i).1 ↔ (ztRun s fuel i).2 = true := by
  induction fuel with
  | zero =>
    intro i
    by_cases h : s.stop i
    · rw [ztRun_stop h]; simp
    · rw [ztRun_zero_go (by simpa using h)]; simp
  | succ fuel ih =>
    intro i
    by_cases h : s.stop i
    · rw [ztRun_stop h]; simp
    · rw [ztRun_go (by simpa using h)]
      simp only [List.mem_cons]
      rw [← ih (i + 1)]
      constructor
      · rintro (h1 | h1 | h1 | h1)
        · cases h1
        · cases h1
        · cases h1
        · exact h1
      · intro h1; exact Or.inr (Or.inr (Or.inr h1))

/-! ## Claim theorems -/

/-- C8: the error-code normalization `_errno_UtoK` is idempotent
(`normalize (normalize e) = normalize e` for every integer `e`); it negates
positive codes (`0 < e → normalize e = -e`) and passes non-positive codes
through unchanged (`e ≤ 0 → normalize e = e`). -/
theorem C8_errno_UtoK_idempotent (e : Int) :
    _errno_UtoK (_errno_UtoK e) = _errno_UtoK e ∧
    (0 < e → _errno_UtoK e = -e) ∧
    (e ≤ 0 → _errno_UtoK e = e) := by
  refine ⟨?_, fun h => errno_UtoK_of_nonneg (le_of_lt h), fun h => ?_⟩
  · rcases lt_or_le e 0 with h | h
    · rw [errno_UtoK_of_neg h, errno_UtoK_of_neg h]
    · rw [errno_UtoK_of_nonneg h]
      rcases eq_or_lt_of_le h with h0 | h0
      · simp [_errno_UtoK, ← h0]
      · rw [errno_UtoK_of_neg (show -e < 0 by omega)]
  · rcases lt_or_eq_of_le h with h0 | h0
    · exact errno_UtoK_of_neg h0
    · simp [_errno_UtoK, h0]

theorem C8_errno_UtoK_idempotent_witness :
    _errno_UtoK (_errno_UtoK 5) = _errno_UtoK 5 ∧
    _errno_UtoK 5 = -5 ∧ _errno_UtoK (-3) = -3 :=
  ⟨(C8_errno_UtoK_idempotent 5).1,
   (C8_errno_UtoK_idempotent 5).2.1 (by norm_num),
   (C8_errno_UtoK_idempotent (-3)).2.2 (by norm_num)⟩

/-- C1: `_errno_UtoK` maps every integer to a non-positive value, and hence
every value a worker's main loop writes back into the operation header's
`err` field (a `writeErr` event of `ztRun`, which the loop computes as
`_errno_UtoK` of the demultiplexer's result) is `≤ 0`. -/
theorem C1_header_err_nonpositive :
    (∀ e : Int, _errno_UtoK e ≤ 0) ∧
    (∀ (s : ZTStream) (fuel i : Nat) (v : Int),
       ZTEvent.writeErr v ∈ (ztRun s fuel i).1 → v ≤ 0) :=
  ⟨errno_UtoK_nonpos, fun s fuel i v h => ztRun_writeErr_nonpos s fuel i v h⟩

theorem C1_header_err_nonpositive_witness :
    ZTEvent.writeErr (-5) ∈ (ztRun c1Stream 1 0).1 ∧ (-5 : Int) ≤ 0 :=
  ⟨by decide, C1_header_err_nonpositive.2 c1Stream 1 0 (-5) (by decide)⟩

/-- C5: the worker main loop never exits because `zuf_wait_opt` returned a
non-zero error: the exit flag of a run depends only on the stop stream (two
environments with the same stop flags but arbitrary transport and dispatch
results exit identically); a run exits exactly when the stop flag was
observed true at some iteration within the fuel; and the teardown
(`zuf_root_close`, after the unmaps) appears in the trace exactly when the
run exited. -/
theorem C5_exit_only_by_stop (s s' : ZTStream) (fuel i : Nat)
    (hs : s.stop = s'.stop) :
    ((ztRun s fuel i).2 = true ↔ ∃ k ≤ fuel, s.stop (i + k) = true) ∧
    (ztRun s fuel i).2 = (ztRun s' fuel i).2 ∧
    (ZTEvent.closeEv ∈ (ztRun s fuel i).1 ↔ (ztRun s fuel i).2 = true) :=
  ⟨ztRun_exit_iff_stop s fuel i, ztRun_exit_eq s s' hs fuel i,
   ztRun_close_iff_exit s fuel i⟩

theorem C5_exit_only_by_stop_witness :
    (ztRun c5Stream 3 0).2 = true ∧
    (ztRun c5Stream 3 0).2 = (ztRun c5Stream' 3 0).2 ∧
    ZTEvent.closeEv ∈ (ztRun c5Stream 3 0).1 := by
  have h := C5_exit_only_by_stop c5Stream c5Stream' 3 0 rfl
  have hex : (ztRun c5Stream 3 0).2 = true := h.1.mpr ⟨1, by norm_num, by decide⟩
  exact ⟨hex, h.2.1, h.2.2.mpr hex⟩

/-- C10: on every iteration of the worker main loop at which the stop flag
is false, the loop emits the transport event, invokes the demultiplexer and
overwrites `op->hdr.err` with the normalized dispatch result — with no
condition whatsoever on the value `zuf_wait_opt` returned, so a transport
failure never suppresses the dispatch step. -/
theorem C10_dispatch_unconditional (s : ZTStream) (fuel i : Nat)
    (h : s.stop i = false) :
    ztRun s (fuel + 1) i =
      (ZTEvent.waitOp (s.waitErr i) :: ZTEvent.dispatch i ::
         ZTEvent.writeErr (_errno_UtoK (s.doOp i)) :: (ztRun s fuel (i + 1)).1,
       (ztRun s fuel (i + 1)).2) ∧
    ZTEvent.dispatch i ∈ (ztRun s (fuel + 1) i).1 ∧
    ZTEvent.writeErr (_errno_UtoK (s.doOp i)) ∈ (ztRun s (fuel + 1) i).1 := by
  refine ⟨ztRun_go h, ?_, ?_⟩ <;> rw [ztRun_go h] <;> simp

theorem C10_dispatch_unconditional_witness :
    ztRun c10Stream 1 0 =
      ([ZTEvent.waitOp (-9), ZTEvent.dispatch 0, ZTEvent.writeErr (-7)], false) :=
  ((C10_dispatch_unconditional c10Stream 0 0 rfl).1).trans (by decide)

/-- C2: the LOOKUP handler resolves a name of shape `"."` (length 1, first
byte a dot) to the parent's own `i_ino`, a name of shape `".."` (length 2,
two dots) to the parent's stored parent inode number, any other name via
the back-end lookup; and whenever a valid (non-NULL) name resolves to inode
number 0 the handler returns `-ENOENT` with no reply fields set. -/
theorem C2_lookup_specials (ctx : LookupCtx) (sd sdd so : ZufsStr)
    (hd1 : sd.len = 1) (hd2 : sd.name 0 = 46)
    (hdd1 : sdd.len = 2) (hdd2 : sdd.name 0 = 46) (hdd3 : sdd.name 1 = 46)
    (ho1 : strncmp dotName so.name so.len ≠ 0)
    (ho2 : strncmp dotdotName so.name so.len ≠ 0) :
    lookup_resolved_ino ctx sd = ctx.dirIno ∧
    lookup_resolved_ino ctx sdd = ctx.dirParent ∧
    lookup_resolved_ino ctx so = ctx.backendLookup so ∧
    (∀ s : ZufsStr, s.len ≠ 0 → s.name 0 ≠ 0 → lookup_resolved_ino ctx s = 0 →
       _lookup ctx s = ⟨-ENOENT, none, none⟩) := by
  refine ⟨?_, ?_, ?_, ?_⟩
  · unfold lookup_resolved_ino
    rw [hd1]
    simp [strncmp, dotName, hd2]
  · unfold lookup_resolved_ino
    rw [hdd1]
    have h1 : strncmp dotName sdd.name 2 = -46 := by
      simp [strncmp, dotName, hdd2, hdd3]
    have h2 : strncmp dotdotName sdd.name 2 = 0 := by
      simp [strncmp, dotdotName, hdd2, hdd3]
    rw [h1, h2]
    norm_num
  · unfold lookup_resolved_ino
    rw [if_neg ho1, if_neg ho2]
  · intro s h1 h2 h3
    unfold _lookup
    rw [if_neg (by push_neg; exact ⟨h1, h2⟩)]
    simp [h3]

theorem C2_lookup_specials_witness :
    lookup_resolved_ino c2Ctx c2Dot = 5 ∧
    lookup_resolved_ino c2Ctx c2DotDot = 3 ∧
    lookup_resolved_ino c2Ctx c2Other = 0 ∧
    _lookup c2Ctx c2Other = ⟨-ENOENT, none, none⟩ := by
  have h := C2_lookup_specials c2Ctx c2Dot c2DotDot c2Other rfl rfl rfl rfl rfl
    (by decide) (by decide)
  exact ⟨h.1, h.2.1, h.2.2.1, h.2.2.2 c2Other (by decide) (by decide) h.2.2.1⟩

/-- C9: a LOOKUP request whose name has zero length or whose first byte is
NUL returns 0 without consulting anything: no error, no `_zi` offset and no
`zus_ii` handle are placed in the reply (in particular the result is not
`-ENOENT`). -/
theorem C9_lookup_null_name (ctx : LookupCtx) (str : ZufsStr)
    (h : str.len = 0 ∨ str.name 0 = 0) :
    _lookup ctx str = ⟨0, none, none⟩ := by
  unfold _lookup
  rw [if_pos h]

theorem C9_lookup_null_name_witness :
    _lookup c2Ctx c9Str = ⟨0, none, none⟩ :=
  C9_lookup_null_name c2Ctx c9Str (Or.inl rfl)

/-- C3 counterexample: with allocation succeeding (handle 7), the back-end
`new_inode` succeeding and `add_dentry` failing with -17 on a non-TMPFILE
request, the handler does roll back (calls `free_inode` and `zii_free`) and
returns the `add_dentry` error — but the `zus_ii` handle field written into
the reply buffer before the `add_dentry` attempt is left set, so a new
inode handle is still present in the reply, contradicting the claim that no
handle is left published. -/
theorem C3_counterexample :
    (_new_inode c3EnvFail c3Ioc).err = -17 ∧
    (_new_inode c3EnvFail c3Ioc).zus_ii = some 7 ∧
    (_new_inode c3EnvFail c3Ioc).zi_off = some 7 ∧
    NICall.freeInodeCall ∈ (_new_inode c3EnvFail c3Ioc).calls ∧
    NICall.ziiFreeCall ∈ (_new_inode c3EnvFail c3Ioc).calls := by decide

/-- C3 (amended): for every NEW_INODE operation on which the handle
allocation succeeds, the inode's link count is 0 at the moment the back-end
`new_inode` is called; when `new_inode` succeeds, `add_dentry` is invoked
exactly when the TMPFILE flag is not set; and if `add_dentry` fails, the
allocation is rolled back (`free_inode` and `zii_free` are called) and the
`add_dentry` error is returned — though the `_zi`/`zus_ii` reply fields
written before the `add_dentry` attempt remain set (the non-zero error
marks the reply as failed). -/
theorem C3_new_inode_amended (env : NewInodeEnv) (ioc : NewInodeIoc) (zii : Nat)
    (halloc : env.ziiAllocRes = some zii) :
    (∀ n, NICall.newInodeCall n ∈ (_new_inode env ioc).calls → n = 0) ∧
    (env.newInodeErr = 0 →
       (NICall.addDentryCall ∈ (_new_inode env ioc).calls ↔ ioc.tmpfile = false)) ∧
    (env.newInodeErr = 0 → ioc.tmpfile = false → env.addDentryErr ≠ 0 →
       (_new_inode env ioc).err = env.addDentryErr ∧
       NICall.freeInodeCall ∈ (_new_inode env ioc).calls ∧
       NICall.ziiFreeCall ∈ (_new_inode env ioc).calls ∧
       (_new_inode env ioc).zus_ii = some zii) := by
  by_cases h1 : env.newInodeErr = 0
  · by_cases h2 : ioc.tmpfile
    · simp [_new_inode, halloc, h1, h2]
    · by_cases h3 : env.addDentryErr = 0 <;>
        simp [_new_inode, halloc, h1, h2, h3]
  · simp [_new_inode, halloc, h1]

theorem C3_new_inode_amended_witness :
    NICall.addDentryCall ∈ (_new_inode c3EnvFail c3Ioc).calls ∧
    (_new_inode c3EnvFail c3Ioc).err = -17 ∧
    NICall.freeInodeCall ∈ (_new_inode c3EnvFail c3Ioc).calls ∧
    (∀ n, NICall.newInodeCall n ∈ (_new_inode c3EnvFail c3Ioc).calls → n = 0) := by
  have h := C3_new_inode_amended c3EnvFail c3Ioc 7 rfl
  have hrb := h.2.2 rfl rfl (by decide)
  exact ⟨(h.2.1 rfl).mpr rfl, hrb.1, hrb.2.1, h.1⟩

/-- C4 counterexample: an EVICT_INODE request carrying a NULL `zus_ii`
handle returns 0 without invoking any callback — in particular `zii_free`
is not invoked, though the claim says it always is, and `evict` is not
invoked although it is present and the LOOKUP_RACE flag is clear. -/
theorem C4_counterexample :
    _evict ZusOp.EVICT_INODE c4EnvNull = (0, []) ∧
    EvictCall.ziiFreeCall ∉ (_evict ZusOp.EVICT_INODE c4EnvNull).2 ∧
    EvictCall.evictCall ∉ (_evict ZusOp.EVICT_INODE c4EnvNull).2 ∧
    c4EnvNull.evictPresent = true ∧ c4EnvNull.lookupRace = false := by decide

/-- C4 (amended): for every EVICT_INODE operation carrying a non-NULL inode
handle, the back-end `evict` is invoked iff it is present and the
LOOKUP_RACE flag is not set; for every FREE_INODE operation carrying a
non-NULL handle, `free_inode` is invoked iff present; in both cases
`zii_free` is invoked and the handler returns 0. When the handle is NULL
the handler logs and returns 0 without invoking any callback. -/
theorem C4_evict_amended (env : EvictEnv) (zii : Nat) (h : env.zusIi = some zii) :
    ((EvictCall.evictCall ∈ (_evict ZusOp.EVICT_INODE env).2) ↔
       (env.evictPresent = true ∧ env.lookupRace = false)) ∧
    ((EvictCall.freeInodeCall ∈ (_evict ZusOp.FREE_INODE env).2) ↔
       env.freeInodePresent = true) ∧
    EvictCall.ziiFreeCall ∈ (_evict ZusOp.EVICT_INODE env).2 ∧
    EvictCall.ziiFreeCall ∈ (_evict ZusOp.FREE_INODE env).2 ∧
    (_evict ZusOp.EVICT_INODE env).1 = 0 ∧
    (_evict ZusOp.FREE_INODE env).1 = 0 ∧
    (∀ (op : ZusOp) (env' : EvictEnv), env'.zusIi = none → _evict op env' = (0, [])) := by
  obtain ⟨z, fip, ep, lr⟩ := env
  simp only at h
  subst h
  refine ⟨?_, ?_, ?_, ?_, ?_, ?_, ?_⟩
  · cases ep <;> cases lr <;> simp [_evict]
  · cases fip <;> simp [_evict]
  · cases ep <;> cases lr <;> simp [_evict]
  · cases fip <;> simp [_evict]
  · simp [_evict]
  · simp [_evict]
  · intro op env' h'
    obtain ⟨z', fip', ep', lr'⟩ := env'
    simp only at h'
    subst h'
    simp [_evict]

theorem C4_evict_amended_witness :
    EvictCall.evictCall ∈ (_evict ZusOp.EVICT_INODE c4Env).2 ∧
    EvictCall.freeInodeCall ∈ (_evict ZusOp.FREE_INODE c4Env).2 ∧
    EvictCall.ziiFreeCall ∈ (_evict ZusOp.EVICT_INODE c4Env).2 ∧
    (_evict ZusOp.EVICT_INODE c4Env).1 = 0 ∧
    _evict ZusOp.EVICT_INODE c4EnvNull = (0, []) := by
  have h := C4_evict_amended c4Env 3 rfl
  exact ⟨h.1.mpr ⟨rfl, rfl⟩, h.2.1.mpr rfl, h.2.2.1, h.2.2.2.2.1,
    h.2.2.2.2.2.2 ZusOp.EVICT_INODE c4EnvNull rfl⟩

/-- C6: the demultiplexer's per-operation defaults for absent vtable
entries: a RENAME with no `rename` callback returns `-ENOTSUP`, an
XATTR_GET with no `getxattr` callback returns `-ENOTSUP`, and a PUT_BLOCK
with no `put_block` callback returns 0. -/
theorem C6_optional_vtable_defaults (env : VfsEnv)
    (hr : env.renameFn = none) (hg : env.getxattrFn = none)
    (hp : env.putBlockFn = none) :
    zus_do_command env ZusOp.RENAME = -ENOTSUP ∧
    zus_do_command env ZusOp.XATTR_GET = -ENOTSUP ∧
    zus_do_command env ZusOp.PUT_BLOCK = 0 := by
  simp [zus_do_command, _rename, _ioc_xattr, _get_put_block, hr, hg, hp]

theorem C6_optional_vtable_defaults_witness :
    zus_do_command c6Env ZusOp.RENAME = -ENOTSUP ∧
    zus_do_command c6Env ZusOp.XATTR_GET = -ENOTSUP ∧
    zus_do_command c6Env ZusOp.PUT_BLOCK = 0 :=
  C6_optional_vtable_defaults c6Env rfl rfl rfl

/-- C7: `zus_cpu_to_node` on a cpu that is out of the known range
(`possible_cpus ≤ cpu`) or not online returns node 0 having recorded a
warning (it never aborts — the function is total); on an in-range online
cpu whose node assignment is unique it returns the node whose per-node mask
contains that cpu, with no warning. -/
theorem C7_cpu_to_node_total (m : NumaMap) (cpu : Nat) :
    (m.possible_cpus ≤ cpu ∨ zus_cpu_online m cpu = false →
       zus_cpu_to_node m cpu = (0, 1)) ∧
    (∀ node, cpu < m.possible_cpus → zus_cpu_online m cpu = true →
       node < m.possible_nodes → m.node_bit node cpu = true →
       (∀ n2, n2 < m.possible_nodes → m.node_bit n2 cpu = true → n2 = node) →
       zus_cpu_to_node m cpu = (node, 0)) := by
  constructor
  · intro h
    rcases h with h | h
    · simp [zus_cpu_to_node, ___BAD_CPU, h]
    · by_cases h2 : m.possible_cpus ≤ cpu <;>
        simp [zus_cpu_to_node, ___BAD_CPU, h, h2]
  · intro node hlt honline hnode hbit huniq
    have hbad : ___BAD_CPU m cpu = (false, 0) := by
      simp [___BAD_CPU, Nat.not_le.mpr hlt, honline]
    simp only [zus_cpu_to_node, hbad]
    cases hf : (List.range (zus_num_possible_nodes m)).find?
        (fun n => m.node_bit n cpu) with
    | none =>
      exfalso
      rw [List.find?_eq_none] at hf
      have hmem : node ∈ List.range (zus_num_possible_nodes m) :=
        List.mem_range.mpr (by simpa [zus_num_possible_nodes] using hnode)
      have hfalse := hf node hmem
      simp [hbit] at hfalse
    | some x =>
      have hx := List.find?_some hf
      have hxm := List.mem_of_find?_eq_some hf
      have hxe : x = node := huniq x
        (by simpa [zus_num_possible_nodes] using List.mem_range.mp hxm)
        (by simpa using hx)
      subst hxe
      simp

theorem C7_cpu_to_node_total_witness :
    zus_cpu_to_node c7Map 7 = (0, 1) ∧
    zus_cpu_to_node c7Map 3 = (1, 0) := by
  have hbad := (C7_cpu_to_node_total c7Map 7).1
  have hgood := (C7_cpu_to_node_total c7Map 3).2
  exact ⟨hbad (Or.inl (by decide)),
    hgood 1 (by decide) (by decide) (by decide) (by decide) (by decide)⟩

end Zus
